import Mathlib

/-!
Shallow embedding of `src/App/bootstrap_spec_vectorstore.py`.

The script is a linear three-step provisioning sequence: fetch a spec file
from the GitHub contents API, upload it into an OpenAI vector store, and
attach that store to an assistant with the file-search tool.  All network
effects are modelled by an oracle (`World`) that supplies the remote
responses; every embedded function returns, alongside its value, the list
of remote API calls it performed (`Call`) and the lines it printed, so that
theorems can speak about which calls occur and in what order.  Python
exceptions become an explicit error type (`PyError`), `sys.exit` becomes a
distinguished outcome of `main_run`, and Python string truthiness is
modelled by `truthyOpt` on `Option String` (absent or empty is falsy).
-/

namespace BoatSpec

/-- The process environment: `none` models an unset variable, `some s`
a variable set to `s` (possibly the empty string). -/
def EnvMap : Type := String → Option String

/-- `os.environ.get(key)`. -/
def os_environ_get (env : EnvMap) (key : String) : Option String :=
  env key

/-- `os.environ.get(key, default)`: the default applies only when the key
is absent, not when it is set to the empty string. -/
def os_environ_get_default (env : EnvMap) (key default : String) : String :=
  (env key).getD default

/-- Python string truthiness lifted to `Option String`: `None` and the
empty string are falsy, every other string is truthy. -/
def truthyOpt : Option String → Bool
  | none => false
  | some s => s ≠ ""

/-- The characters after the last slash of a character list: scanning
left to right, a slash discards everything collected so far. -/
def after_last_slash (cs : List Char) : List Char :=
  cs.foldl (fun acc c => if c = '/' then [] else acc ++ [c]) []

/-- `posixpath.basename` (`p[p.rfind(chr(47))+1:]`): the part of the path
after the last slash, empty when the path ends in a slash. -/
def os_path_basename (p : String) : String :=
  String.mk (after_last_slash p.data)

/-- Response of the GitHub contents endpoint: HTTP status and raw body
bytes (the raw-accept header means no base64 decoding happens). -/
structure GhResponse where
  status : Nat
  body : List Nat
  deriving DecidableEq

/-- The vector-store file batch returned by `upload_and_poll`: its terminal
status and the rendered per-file counts. -/
structure Batch where
  status : String
  file_counts : String
  deriving DecidableEq

/-- An assistant object as returned by the assistants API. -/
structure Assistant where
  id : String
  deriving DecidableEq

/-- Oracle for the two remote services.  `gh` answers a contents-API GET
(owner, repo, path, optional ref query parameter); `vs_create_id` is the id
generated for a newly created vector store; `upload_batch` is the terminal
batch reported by `upload_and_poll`; `assistants_update` and
`assistants_create` are the assistant objects the assistants API returns. -/
structure World where
  gh : String → String → String → Option String → GhResponse
  vs_create_id : String → String
  upload_batch : String → List Nat → String → Batch
  assistants_update : String → Assistant
  assistants_create : String → String → Assistant

/-- One remote API call, as recorded in a run's trace. -/
inductive Call where
  | http_get (owner repo path : String) (refParam : Option String)
  | vs_create (name : String)
  | vs_upload (vector_store_id : String) (data : List Nat) (filename : String)
  | assistants_update (assistant_id : String) (tools : List String)
      (vector_store_ids : List String)
  | assistants_create (model name instructions : String) (tools : List String)
      (vector_store_ids : List String)
  deriving DecidableEq

/-- Python exceptions raised by the script: `FileNotFoundError` from the
404 check, `requests.HTTPError` from `raise_for_status`, and the
`RuntimeError` raised when the ingestion batch is not completed. -/
inductive PyError where
  | fileNotFound (msg : String)
  | httpError (status : Nat)
  | runtimeError (msg : String)
  deriving DecidableEq

/-- `fetch_spec_from_github(owner, repo, path, ref, token)`: GET the
contents URL with the raw accept header; on 404 raise `FileNotFoundError`,
on any other error status raise `HTTPError`, otherwise return the exact
response body. -/
def fetch_spec_from_github (w : World) (owner repo path ref token : String) :
    List Call × Except PyError (List Nat) :=
  let refParam : Option String := if ref ≠ "" then some ref else none
  let r := w.gh owner repo path refParam
  let calls := [Call.http_get owner repo path refParam]
  if r.status = 404 then
    (calls, .error (.fileNotFound
      ("GitHub path not found: " ++ owner ++ "/" ++ repo ++ ":" ++ path ++ "@" ++ ref)))
  else if 400 ≤ r.status ∧ r.status < 600 then
    (calls, .error (.httpError r.status))
  else
    (calls, .ok r.body)

/-- A single-quote character, for reproducing the printed messages. -/
def squote : String := (Char.ofNat 39).toString

/-- `ensure_vector_store(client, vector_store_id, name)`: if the given id
is truthy, reuse it (no API call); otherwise create a store with the given
name and return the generated id.  Returns (calls, printed lines, id). -/
def ensure_vector_store (w : World) (vector_store_id : Option String) (name : String) :
    List Call × List String × String :=
  if truthyOpt vector_store_id then
    let id := vector_store_id.getD ""
    ([], ["Reusing Vector Store: " ++ id], id)
  else
    let vsid := w.vs_create_id name
    ([Call.vs_create name],
     ["Created Vector Store: " ++ vsid ++ " (name=" ++ squote ++ name ++ squote ++ ")"],
     vsid)

/-- `upload_spec_to_vector_store(client, vector_store_id, spec_bytes,
filename)`: upload the bytes as a one-file batch and poll; raise
`RuntimeError` (with status and per-file counts in the message) unless the
terminal status is "completed". -/
def upload_spec_to_vector_store (w : World) (vector_store_id : String)
    (spec_bytes : List Nat) (filename : String) :
    List Call × List String × Except PyError Unit :=
  let batch := w.upload_batch vector_store_id spec_bytes filename
  let calls := [Call.vs_upload vector_store_id spec_bytes filename]
  if batch.status ≠ "completed" then
    (calls, [], .error (.runtimeError
      ("Vector store file batch not completed: status=" ++ batch.status ++
        ", counts=" ++ batch.file_counts)))
  else
    (calls, ["Uploaded to Vector Store. File counts: " ++ batch.file_counts], .ok ())

/-- The fixed instruction string used when creating a new assistant. -/
def assistant_instructions : String :=
  "Answer questions about the boat using File Search. " ++
  "Cite facts from the provided spec where possible."

/-- `ensure_assistant_with_fs(client, assistant_id, vs_id, name, model)`:
if the given assistant id is truthy, update that assistant in place with
the file-search tool and the single vector store id, returning the id of
the returned object; otherwise create a new assistant with the fixed
instructions, the file-search tool and the single vector store id. -/
def ensure_assistant_with_fs (w : World) (assistant_id : Option String)
    (vs_id name model : String) : List Call × List String × String :=
  if truthyOpt assistant_id then
    let aid := assistant_id.getD ""
    let a := w.assistants_update aid
    ([Call.assistants_update aid ["file_search"] [vs_id]],
     ["Updated Assistant: " ++ a.id ++ " (attached Vector Store " ++ vs_id ++ ")"],
     a.id)
  else
    let a := w.assistants_create model name
    ([Call.assistants_create model name assistant_instructions ["file_search"] [vs_id]],
     ["Created Assistant: " ++ a.id ++ " (model=" ++ model ++
       ", attached Vector Store " ++ vs_id ++ ")"],
     a.id)

/-- The configuration `main` resolves from argparse and the environment. -/
structure Resolved where
  owner : String
  repo : String
  path : String
  ref : String
  deriving DecidableEq

/-- Lines 127-132 and 142-145 of `main`: argparse gives `--path` the
default `os.environ.get("GITHUB_PATH", "spec/spec.json")` (similarly
`--ref` with default `main`), then each of owner/repo/path/ref is resolved
as `os.environ.get(VAR, args.value)`.  `cli_path = none` models `--path`
not being supplied on the command line. -/
def resolve_config (env : EnvMap) (cli_owner cli_repo : String)
    (cli_path cli_ref : Option String) : Resolved :=
  let args_path := cli_path.getD (os_environ_get_default env "GITHUB_PATH" "spec/spec.json")
  let args_ref := cli_ref.getD (os_environ_get_default env "GITHUB_REF" "main")
  { owner := os_environ_get_default env "GITHUB_OWNER" cli_owner
    repo := os_environ_get_default env "GITHUB_REPO" cli_repo
    path := os_environ_get_default env "GITHUB_PATH" args_path
    ref := os_environ_get_default env "GITHUB_REF" args_ref }

/-- Outcome of a run of `main`: `sys.exit(code)`, an uncaught exception,
or normal completion with the two final resource ids. -/
inductive MainResult where
  | exited (code : Nat)
  | failed (e : PyError)
  | finished (vs_id assistant_id : String)
  deriving DecidableEq

/-- `main()`, from the point where argparse has succeeded (both required
arguments present).  Returns the remote calls made, the lines printed
(stdout and stderr interleaved in program order), and the outcome. -/
def main_run (w : World) (env : EnvMap) (cli_owner cli_repo : String)
    (cli_path cli_ref : Option String) : List Call × List String × MainResult :=
  let gh_token := os_environ_get env "GITHUB_TOKEN"
  if ¬ truthyOpt gh_token then
    ([], ["Missing env GITHUB_TOKEN"], .exited 1)
  else if ¬ truthyOpt (os_environ_get env "OPENAI_API_KEY") then
    ([], ["Missing env OPENAI_API_KEY"], .exited 1)
  else
    let cfg := resolve_config env cli_owner cli_repo cli_path cli_ref
    let out0 := "Fetching " ++ cfg.owner ++ "/" ++ cfg.repo ++ ":" ++ cfg.path ++
      "@" ++ cfg.ref ++ " from GitHub…"
    let f := fetch_spec_from_github w cfg.owner cfg.repo cfg.path cfg.ref (gh_token.getD "")
    match f.2 with
    | .error e => (f.1, [out0], .failed e)
    | .ok spec_bytes =>
      let out1 := "Fetched " ++ toString spec_bytes.length ++ " bytes."
      let evs := ensure_vector_store w
        (os_environ_get env "VECTOR_STORE_ID")
        (os_environ_get_default env "VECTOR_STORE_NAME" "Boat Spec (MVP)")
      let vs_id := evs.2.2
      let fname := if os_path_basename cfg.path ≠ "" then os_path_basename cfg.path
        else "spec.json"
      let up := upload_spec_to_vector_store w vs_id spec_bytes fname
      match up.2.2 with
      | .error e =>
        (f.1 ++ evs.1 ++ up.1, [out0, out1] ++ evs.2.1 ++ up.2.1, .failed e)
      | .ok _ =>
        let ea := ensure_assistant_with_fs w
          (os_environ_get env "ASSISTANT_ID") vs_id
          (os_environ_get_default env "ASSISTANT_NAME" "Boat Spec Assistant (MVP)")
          (os_environ_get_default env "MODEL" "gpt-4o-mini")
        (f.1 ++ evs.1 ++ up.1 ++ ea.1,
         [out0, out1] ++ evs.2.1 ++ up.2.1 ++ ea.2.1 ++
           ["", "✅ Ready!",
            "Vector Store ID : " ++ vs_id,
            "Assistant ID    : " ++ ea.2.2,
            "You can now ask the assistant questions grounded in spec.json."],
         .finished vs_id ea.2.2)

/-- Is this call one of the assistant-provisioning calls? -/
def Call.isAssistantCall : Call → Bool
  | .assistants_update .. => true
  | .assistants_create .. => true
  | _ => false

/-- Is this call a call to the vector-store/assistant (OpenAI) service, as
opposed to the GitHub contents API? -/
def Call.isOpenAICall : Call → Bool
  | .http_get .. => false
  | _ => true

/-- Does this call, if it provisions an assistant, bind exactly the
singleton vector-store list `[vs_id]`?  (Non-assistant calls pass.) -/
def Call.bindsOnly (vs_id : String) : Call → Bool
  | .assistants_update _ _ vids => vids = [vs_id]
  | .assistants_create _ _ _ _ vids => vids = [vs_id]
  | _ => true

/-- Is this call an upload into the vector store `vs_id`? -/
def Call.uploadsTo (vs_id : String) : Call → Bool
  | .vs_upload v _ _ => v = vs_id
  | _ => false

/-- Is this call an upload carrying the filename `fname`? -/
def Call.uploadsFilename (fname : String) : Call → Bool
  | .vs_upload _ _ f => f = fname
  | _ => false

/-- A concrete oracle for evaluating the theorems: all remote calls
succeed, created resources get fresh ids, and the assistants API echoes
the id it is given (as the real API does). -/
def wOk : World where
  gh := fun _ _ _ _ => { status := 200, body := [123, 125] }
  vs_create_id := fun _ => "vs_new"
  upload_batch := fun _ _ _ => { status := "completed", file_counts := "FileCounts(completed=1)" }
  assistants_update := fun aid => { id := aid }
  assistants_create := fun _ _ => { id := "asst_new" }

/-- Like `wOk` but the contents API reports 404 for every request. -/
def w404 : World :=
  { wOk with gh := fun _ _ _ _ => { status := 404, body := [] } }

/-- Like `wOk` but every ingestion batch terminates as "failed". -/
def wBad : World :=
  { wOk with upload_batch := fun _ _ _ =>
      { status := "failed", file_counts := "FileCounts(failed=1)" } }

/-- A concrete environment with both required secrets present and nothing
else set. -/
def envSecrets : EnvMap := fun k =>
  if k = "GITHUB_TOKEN" then some "ghp_x"
  else if k = "OPENAI_API_KEY" then some "sk_x"
  else none

/-- Helper: when the contents API answers 200, the fetch returns the exact
response body together with the single GET call it made. -/
theorem fetch_eq_of_ok (w : World) (o r p rf tk : String)
    (h : (w.gh o r p (if rf ≠ "" then some rf else none)).status = 200) :
    fetch_spec_from_github w o r p rf tk =
      ([Call.http_get o r p (if rf ≠ "" then some rf else none)],
        .ok (w.gh o r p (if rf ≠ "" then some rf else none)).body) := by
  simp only [ne_eq, ite_not] at h ⊢
  simp [fetch_spec_from_github, h]

/-- Helper: when the contents API answers 404, the fetch raises
`FileNotFoundError` after the single GET call. -/
theorem fetch_eq_of_404 (w : World) (o r p rf tk : String)
    (h : (w.gh o r p (if rf ≠ "" then some rf else none)).status = 404) :
    fetch_spec_from_github w o r p rf tk =
      ([Call.http_get o r p (if rf ≠ "" then some rf else none)],
        .error (.fileNotFound
          ("GitHub path not found: " ++ o ++ "/" ++ r ++ ":" ++ p ++ "@" ++ rf))) := by
  simp only [ne_eq, ite_not] at h ⊢
  simp [fetch_spec_from_github, h]

/-- Helper: a batch whose terminal status is not "completed" makes the
upload raise `RuntimeError` with the status and counts in the message. -/
theorem upload_eq_of_not_completed (w : World) (v : String) (b : List Nat) (f : String)
    (h : (w.upload_batch v b f).status ≠ "completed") :
    upload_spec_to_vector_store w v b f =
      ([Call.vs_upload v b f], [],
        .error (.runtimeError ("Vector store file batch not completed: status=" ++
          (w.upload_batch v b f).status ++ ", counts=" ++
          (w.upload_batch v b f).file_counts))) := by
  simp [upload_spec_to_vector_store, h]

/-- Helper: a completed batch makes the upload succeed and print the
per-file counts. -/
theorem upload_eq_of_completed (w : World) (v : String) (b : List Nat) (f : String)
    (h : (w.upload_batch v b f).status = "completed") :
    upload_spec_to_vector_store w v b f =
      ([Call.vs_upload v b f],
        ["Uploaded to Vector Store. File counts: " ++ (w.upload_batch v b f).file_counts],
        .ok ()) := by
  simp [upload_spec_to_vector_store, h]

/-- Helper: the index-provisioning step never emits an assistant call. -/
theorem ensure_vector_store_calls_not_assistant (w : World)
    (vid : Option String) (name : String) :
    ((ensure_vector_store w vid name).1.all (fun c => ! c.isAssistantCall)) = true := by
  cases h : truthyOpt vid <;>
    simp [ensure_vector_store, h, Call.isAssistantCall]

/-- C1: `ensure_vector_store` with a non-empty existing id performs no
creation call (its call list is empty) and returns exactly that id. -/
theorem ensure_vector_store_reuses_nonempty_id (w : World) (id name : String)
    (h : id ≠ "") :
    (ensure_vector_store w (some id) name).1 = [] ∧
    (ensure_vector_store w (some id) name).2.2 = id := by
  simp [ensure_vector_store, truthyOpt, h]

/-- Witness for C1 at a concrete id and name. -/
theorem ensure_vector_store_reuses_nonempty_id_witness :
    (ensure_vector_store wOk (some "vs_123") "Boat Spec (MVP)").1 = [] ∧
    (ensure_vector_store wOk (some "vs_123") "Boat Spec (MVP)").2.2 = "vs_123" :=
  ensure_vector_store_reuses_nonempty_id wOk "vs_123" "Boat Spec (MVP)" (by decide)

/-- C4: `ensure_assistant_with_fs` with a non-empty existing assistant id
performs exactly one update call and no create call, the update binds
exactly the tool list `["file_search"]` and the vector-store list
`[vs_id]`, and the function returns the given assistant id (the assistants
API echoes the id of the updated assistant). -/
theorem ensure_assistant_update_only (w : World) (aid vs_id name model : String)
    (h : aid ≠ "") (hw : (w.assistants_update aid).id = aid) :
    (ensure_assistant_with_fs w (some aid) vs_id name model).1 =
      [Call.assistants_update aid ["file_search"] [vs_id]] ∧
    (ensure_assistant_with_fs w (some aid) vs_id name model).2.2 = aid := by
  simp [ensure_assistant_with_fs, truthyOpt, h, hw]

/-- Witness for C4 at a concrete assistant id and store id. -/
theorem ensure_assistant_update_only_witness :
    (ensure_assistant_with_fs wOk (some "asst_1") "vs_1" "n" "gpt-4o-mini").1 =
      [Call.assistants_update "asst_1" ["file_search"] ["vs_1"]] ∧
    (ensure_assistant_with_fs wOk (some "asst_1") "vs_1" "n" "gpt-4o-mini").2.2 = "asst_1" :=
  ensure_assistant_update_only wOk "asst_1" "vs_1" "n" "gpt-4o-mini" (by decide) rfl

/-- C7: every assistant-provisioning call emitted by
`ensure_assistant_with_fs` — update or create, reuse branch or create
branch — binds the retrieval tool's vector-store list to exactly the
singleton `[vs_id]`. -/
theorem assistant_binding_singleton (w : World) (assistant_id : Option String)
    (vs_id name model : String) :
    ((ensure_assistant_with_fs w assistant_id vs_id name model).1.all
      (Call.bindsOnly vs_id)) = true := by
  cases h : truthyOpt assistant_id <;>
    simp [ensure_assistant_with_fs, h, Call.bindsOnly]

/-- C5: when `GITHUB_TOKEN` or `OPENAI_API_KEY` is absent or empty, `main`
exits with status 1, having printed exactly one diagnostic line and made
no remote call at all. -/
theorem missing_secret_exits_one (w : World) (env : EnvMap)
    (cli_owner cli_repo : String) (cli_path cli_ref : Option String)
    (h : truthyOpt (env "GITHUB_TOKEN") = false ∨
      truthyOpt (env "OPENAI_API_KEY") = false) :
    (main_run w env cli_owner cli_repo cli_path cli_ref).1 = [] ∧
    (main_run w env cli_owner cli_repo cli_path cli_ref).2.2 = .exited 1 ∧
    ((main_run w env cli_owner cli_repo cli_path cli_ref).2.1 =
        ["Missing env GITHUB_TOKEN"] ∨
      (main_run w env cli_owner cli_repo cli_path cli_ref).2.1 =
        ["Missing env OPENAI_API_KEY"]) := by
  cases htok : truthyOpt (env "GITHUB_TOKEN") with
  | false => simp [main_run, os_environ_get, htok]
  | true =>
    rcases h with h | h
    · rw [htok] at h; cases h
    · simp [main_run, os_environ_get, htok, h]

/-- An environment with no variable set at all. -/
def envUnset : EnvMap := fun _ => none

/-- Witness for C5: with no environment variables at all, the run makes no
call, exits 1, and prints the token diagnostic. -/
theorem missing_secret_exits_one_witness :
    (main_run wOk envUnset "o" "r" none none).1 = [] ∧
    (main_run wOk envUnset "o" "r" none none).2.2 = .exited 1 ∧
    ((main_run wOk envUnset "o" "r" none none).2.1 = ["Missing env GITHUB_TOKEN"] ∨
      (main_run wOk envUnset "o" "r" none none).2.1 = ["Missing env OPENAI_API_KEY"]) :=
  missing_secret_exits_one wOk envUnset "o" "r" none none (Or.inl rfl)

/-- An environment that sets `GITHUB_PATH` (and nothing else), used to
exhibit how the environment overrides an explicitly supplied `--path`. -/
def envC8 : EnvMap := fun k =>
  if k = "GITHUB_PATH" then some "env/dir/env_spec.json" else none

/-- Counterexample to C8 as stated: with `GITHUB_PATH` set and `--path`
explicitly supplied on the command line, the resolved path is the
environment value, not the explicitly supplied command-line value — so the
environment variable takes precedence over an explicit argument, not only
over a command-line default. -/
theorem resolve_config_env_overrides_explicit_cli :
    (resolve_config envC8 "o" "r" (some "cli/dir/cli_spec.json") none).path =
      "env/dir/env_spec.json" ∧
    "env/dir/env_spec.json" ≠ "cli/dir/cli_spec.json" := by
  constructor
  · rfl
  · decide

/-- C8 (amended): each of owner/repo/path/ref resolves to the
corresponding environment variable whenever it is set — also when the
command-line value was explicitly supplied — and otherwise to the
command-line value, where `--path` defaults to "spec/spec.json" and
`--ref` to "main". -/
theorem resolve_config_env_precedence (env : EnvMap) (cli_owner cli_repo : String)
    (cli_path cli_ref : Option String) :
    (resolve_config env cli_owner cli_repo cli_path cli_ref).owner =
      (env "GITHUB_OWNER").getD cli_owner ∧
    (resolve_config env cli_owner cli_repo cli_path cli_ref).repo =
      (env "GITHUB_REPO").getD cli_repo ∧
    (resolve_config env cli_owner cli_repo cli_path cli_ref).path =
      (env "GITHUB_PATH").getD (cli_path.getD "spec/spec.json") ∧
    (resolve_config env cli_owner cli_repo cli_path cli_ref).ref =
      (env "GITHUB_REF").getD (cli_ref.getD "main") := by
  refine ⟨rfl, rfl, ?_, ?_⟩
  · cases hp : env "GITHUB_PATH" <;>
      simp [resolve_config, os_environ_get_default, hp]
  · cases hr : env "GITHUB_REF" <;>
      simp [resolve_config, os_environ_get_default, hr]

/-- C3: when the contents API reports 404, the run performs exactly the
one GET call — so no vector-store or assistant call at all — prints only
the fetch banner, and fails with the distinct `FileNotFoundError` (not the
generic `HTTPError`). -/
theorem fetch_404_blocks_run (w : World) (env : EnvMap)
    (cli_owner cli_repo : String) (cli_path cli_ref : Option String)
    (cfg : Resolved)
    (hcfg : cfg = resolve_config env cli_owner cli_repo cli_path cli_ref)
    (htok : truthyOpt (env "GITHUB_TOKEN") = true)
    (hkey : truthyOpt (env "OPENAI_API_KEY") = true)
    (h404 : ∀ o r p q, (w.gh o r p q).status = 404) :
    main_run w env cli_owner cli_repo cli_path cli_ref =
      ([Call.http_get cfg.owner cfg.repo cfg.path
          (if cfg.ref ≠ "" then some cfg.ref else none)],
       ["Fetching " ++ cfg.owner ++ "/" ++ cfg.repo ++ ":" ++ cfg.path ++ "@" ++
          cfg.ref ++ " from GitHub…"],
       .failed (.fileNotFound ("GitHub path not found: " ++ cfg.owner ++ "/" ++
          cfg.repo ++ ":" ++ cfg.path ++ "@" ++ cfg.ref))) ∧
    ((main_run w env cli_owner cli_repo cli_path cli_ref).1.all
      (fun c => ! c.isOpenAICall)) = true := by
  subst hcfg
  have hf : ∀ tk,
      fetch_spec_from_github w
        (resolve_config env cli_owner cli_repo cli_path cli_ref).owner
        (resolve_config env cli_owner cli_repo cli_path cli_ref).repo
        (resolve_config env cli_owner cli_repo cli_path cli_ref).path
        (resolve_config env cli_owner cli_repo cli_path cli_ref).ref tk =
      ([Call.http_get
          (resolve_config env cli_owner cli_repo cli_path cli_ref).owner
          (resolve_config env cli_owner cli_repo cli_path cli_ref).repo
          (resolve_config env cli_owner cli_repo cli_path cli_ref).path
          (if (resolve_config env cli_owner cli_repo cli_path cli_ref).ref ≠ ""
            then some (resolve_config env cli_owner cli_repo cli_path cli_ref).ref
            else none)],
        .error (.fileNotFound ("GitHub path not found: " ++
          (resolve_config env cli_owner cli_repo cli_path cli_ref).owner ++ "/" ++
          (resolve_config env cli_owner cli_repo cli_path cli_ref).repo ++ ":" ++
          (resolve_config env cli_owner cli_repo cli_path cli_ref).path ++ "@" ++
          (resolve_config env cli_owner cli_repo cli_path cli_ref).ref))) :=
    fun tk => fetch_eq_of_404 w _ _ _ _ tk (h404 _ _ _ _)
  constructor
  · simp [main_run, os_environ_get, htok, hkey, hf]
  · simp [main_run, os_environ_get, htok, hkey, hf, Call.isOpenAICall]

/-- Witness for C3: with both secrets set and a 404-answering remote, the
whole run is the single GET call, one printed line, and the distinct
not-found failure. -/
theorem fetch_404_blocks_run_witness :
    main_run w404 envSecrets "o" "r" none none =
      ([Call.http_get "o" "r" "spec/spec.json" (some "main")],
       ["Fetching o/r:spec/spec.json@main from GitHub…"],
       .failed (.fileNotFound "GitHub path not found: o/r:spec/spec.json@main")) ∧
    ((main_run w404 envSecrets "o" "r" none none).1.all
      (fun c => ! c.isOpenAICall)) = true :=
  fetch_404_blocks_run w404 envSecrets "o" "r" none none
    ⟨"o", "r", "spec/spec.json", "main"⟩ (by decide) rfl rfl
    (fun _ _ _ _ => rfl)

/-- C2: when the ingestion batch reaches a terminal status other than
"completed", the run fails with the `RuntimeError` whose message carries
the batch status and the reported per-file counts, and no assistant call
(update or create) is ever made. -/
theorem upload_not_completed_raises (w : World) (env : EnvMap)
    (cli_owner cli_repo : String) (cli_path cli_ref : Option String)
    (cfg : Resolved)
    (hcfg : cfg = resolve_config env cli_owner cli_repo cli_path cli_ref)
    (htok : truthyOpt (env "GITHUB_TOKEN") = true)
    (hkey : truthyOpt (env "OPENAI_API_KEY") = true)
    (hgh : ∀ o r p q, (w.gh o r p q).status = 200)
    (hbad : ∀ v b f, (w.upload_batch v b f).status ≠ "completed")
    (batch : Batch)
    (hbatch : batch = w.upload_batch
      (ensure_vector_store w (os_environ_get env "VECTOR_STORE_ID")
        (os_environ_get_default env "VECTOR_STORE_NAME" "Boat Spec (MVP)")).2.2
      (w.gh cfg.owner cfg.repo cfg.path
        (if cfg.ref ≠ "" then some cfg.ref else none)).body
      (if os_path_basename cfg.path ≠ "" then os_path_basename cfg.path
        else "spec.json")) :
    (main_run w env cli_owner cli_repo cli_path cli_ref).2.2 =
      .failed (.runtimeError ("Vector store file batch not completed: status=" ++
        batch.status ++ ", counts=" ++ batch.file_counts)) ∧
    ((main_run w env cli_owner cli_repo cli_path cli_ref).1.all
      (fun c => ! c.isAssistantCall)) = true := by
  subst hcfg
  subst hbatch
  have hf : ∀ o r p rf tk, fetch_spec_from_github w o r p rf tk =
      ([Call.http_get o r p (if rf ≠ "" then some rf else none)],
        .ok (w.gh o r p (if rf ≠ "" then some rf else none)).body) :=
    fun o r p rf tk => fetch_eq_of_ok w o r p rf tk (hgh _ _ _ _)
  have hup : ∀ v b f, upload_spec_to_vector_store w v b f =
      ([Call.vs_upload v b f], [],
        .error (.runtimeError ("Vector store file batch not completed: status=" ++
          (w.upload_batch v b f).status ++ ", counts=" ++
          (w.upload_batch v b f).file_counts))) :=
    fun v b f => upload_eq_of_not_completed w v b f (hbad v b f)
  constructor
  · simp [main_run, os_environ_get, htok, hkey, hf, hup]
  · have hv := ensure_vector_store_calls_not_assistant w
      (os_environ_get env "VECTOR_STORE_ID")
      (os_environ_get_default env "VECTOR_STORE_NAME" "Boat Spec (MVP)")
    simp [main_run, os_environ_get, htok, hkey, hf, hup, Call.isAssistantCall,
      List.all_append] at hv ⊢
    exact hv

/-- Witness for C2: with both secrets set and a service whose batches all
fail, the run fails with the counts-bearing message and makes no assistant
call. -/
theorem upload_not_completed_raises_witness :
    (main_run wBad envSecrets "o" "r" none none).2.2 =
      .failed (.runtimeError
        "Vector store file batch not completed: status=failed, counts=FileCounts(failed=1)") ∧
    ((main_run wBad envSecrets "o" "r" none none).1.all
      (fun c => ! c.isAssistantCall)) = true :=
  upload_not_completed_raises wBad envSecrets "o" "r" none none
    ⟨"o", "r", "spec/spec.json", "main"⟩ (by decide) rfl rfl
    (fun _ _ _ _ => rfl)
    (by intro v b f; show ("failed" : String) ≠ "completed"; decide)
    ⟨"failed", "FileCounts(failed=1)"⟩ rfl

/-- Helper: whatever the batch outcome, the upload step performs exactly
the one upload call. -/
theorem upload_calls_eq (w : World) (v : String) (b : List Nat) (f : String) :
    (upload_spec_to_vector_store w v b f).1 = [Call.vs_upload v b f] := by
  by_cases h : (w.upload_batch v b f).status = "completed" <;>
    simp [upload_spec_to_vector_store, h]

/-- Helper: on a run where both secrets are present and every fetch
succeeds, the trace contains the upload call carrying the provisioned
store id, the fetched bytes and the computed filename, and the output
contains the byte-count line.  Holds whether or not the ingestion batch
completes. -/
theorem main_run_decomp (w : World) (env : EnvMap)
    (cli_owner cli_repo : String) (cli_path cli_ref : Option String)
    (cfg : Resolved)
    (hcfg : cfg = resolve_config env cli_owner cli_repo cli_path cli_ref)
    (name : String)
    (hname : name = os_environ_get_default env "VECTOR_STORE_NAME" "Boat Spec (MVP)")
    (body : List Nat)
    (hbody : body = (w.gh cfg.owner cfg.repo cfg.path
      (if cfg.ref ≠ "" then some cfg.ref else none)).body)
    (vsid : String)
    (hvsid : vsid = (ensure_vector_store w (os_environ_get env "VECTOR_STORE_ID") name).2.2)
    (fname : String)
    (hfname : fname = (if os_path_basename cfg.path ≠ "" then os_path_basename cfg.path
      else "spec.json"))
    (htok : truthyOpt (env "GITHUB_TOKEN") = true)
    (hkey : truthyOpt (env "OPENAI_API_KEY") = true)
    (hgh : ∀ o r p q, (w.gh o r p q).status = 200) :
    Call.vs_upload vsid body fname ∈
      (main_run w env cli_owner cli_repo cli_path cli_ref).1 ∧
    ("Fetched " ++ toString body.length ++ " bytes.") ∈
      (main_run w env cli_owner cli_repo cli_path cli_ref).2.1 := by
  subst hcfg
  subst hname
  subst hvsid
  subst hbody
  subst hfname
  have hf : ∀ o r p rf tk, fetch_spec_from_github w o r p rf tk =
      ([Call.http_get o r p (if rf ≠ "" then some rf else none)],
        .ok (w.gh o r p (if rf ≠ "" then some rf else none)).body) :=
    fun o r p rf tk => fetch_eq_of_ok w o r p rf tk (hgh _ _ _ _)
  simp only [main_run, os_environ_get, htok, hkey, hf, not_true, Bool.not_true,
    Bool.false_eq_true, if_false, ite_false]
  split
  · constructor <;> simp [upload_calls_eq]
  · constructor <;> simp [upload_calls_eq]

/-- C6: when `VECTOR_STORE_ID` is unset, the index step performs exactly
one creation call with the configured name, returns the id generated by
that creation, and the run's upload call targets that same id. -/
theorem vector_store_created_and_used (w : World) (env : EnvMap)
    (cli_owner cli_repo : String) (cli_path cli_ref : Option String)
    (cfg : Resolved)
    (hcfg : cfg = resolve_config env cli_owner cli_repo cli_path cli_ref)
    (name : String)
    (hname : name = os_environ_get_default env "VECTOR_STORE_NAME" "Boat Spec (MVP)")
    (hvs : os_environ_get env "VECTOR_STORE_ID" = none)
    (htok : truthyOpt (env "GITHUB_TOKEN") = true)
    (hkey : truthyOpt (env "OPENAI_API_KEY") = true)
    (hgh : ∀ o r p q, (w.gh o r p q).status = 200) :
    (ensure_vector_store w (os_environ_get env "VECTOR_STORE_ID") name).1 =
      [Call.vs_create name] ∧
    (ensure_vector_store w (os_environ_get env "VECTOR_STORE_ID") name).2.2 =
      w.vs_create_id name ∧
    ((main_run w env cli_owner cli_repo cli_path cli_ref).1.any
      (Call.uploadsTo (w.vs_create_id name))) = true := by
  have hvs' : env "VECTOR_STORE_ID" = none := hvs
  have h1 : (ensure_vector_store w (os_environ_get env "VECTOR_STORE_ID") name).1 =
      [Call.vs_create name] := by
    simp [ensure_vector_store, os_environ_get, hvs', truthyOpt]
  have h2 : (ensure_vector_store w (os_environ_get env "VECTOR_STORE_ID") name).2.2 =
      w.vs_create_id name := by
    simp [ensure_vector_store, os_environ_get, hvs', truthyOpt]
  refine ⟨h1, h2, ?_⟩
  obtain ⟨hmem, -⟩ := main_run_decomp w env cli_owner cli_repo cli_path cli_ref
    cfg hcfg name hname _ rfl _ rfl _ rfl htok hkey hgh
  rw [h2] at hmem
  exact List.any_eq_true.mpr ⟨_, hmem, by simp [Call.uploadsTo]⟩

/-- Witness for C6: with both secrets set and no `VECTOR_STORE_ID`, the
run creates the store with the default name and uploads into the generated
id. -/
theorem vector_store_created_and_used_witness :
    (ensure_vector_store wOk none "Boat Spec (MVP)").1 =
      [Call.vs_create "Boat Spec (MVP)"] ∧
    (ensure_vector_store wOk none "Boat Spec (MVP)").2.2 = "vs_new" ∧
    ((main_run wOk envSecrets "o" "r" none none).1.any
      (Call.uploadsTo "vs_new")) = true :=
  vector_store_created_and_used wOk envSecrets "o" "r" none none
    ⟨"o", "r", "spec/spec.json", "main"⟩ (by decide) "Boat Spec (MVP)" rfl rfl rfl rfl
    (fun _ _ _ _ => rfl)

/-- C9: a successful fetch returns the exact byte content of the HTTP
response body unmodified, and the byte count `main` prints ("Fetched n
bytes.") is the length of that returned content. -/
theorem fetch_roundtrip_logged (w : World) (env : EnvMap)
    (cli_owner cli_repo : String) (cli_path cli_ref : Option String)
    (cfg : Resolved)
    (hcfg : cfg = resolve_config env cli_owner cli_repo cli_path cli_ref)
    (body : List Nat)
    (hbody : body = (w.gh cfg.owner cfg.repo cfg.path
      (if cfg.ref ≠ "" then some cfg.ref else none)).body)
    (htok : truthyOpt (env "GITHUB_TOKEN") = true)
    (hkey : truthyOpt (env "OPENAI_API_KEY") = true)
    (hgh : ∀ o r p q, (w.gh o r p q).status = 200) :
    (fetch_spec_from_github w cfg.owner cfg.repo cfg.path cfg.ref
      ((os_environ_get env "GITHUB_TOKEN").getD "")).2 = .ok body ∧
    ("Fetched " ++ toString body.length ++ " bytes.") ∈
      (main_run w env cli_owner cli_repo cli_path cli_ref).2.1 := by
  constructor
  · subst hbody
    rw [fetch_eq_of_ok w _ _ _ _ _ (hgh _ _ _ _)]
  · obtain ⟨-, hout⟩ := main_run_decomp w env cli_owner cli_repo cli_path cli_ref
      cfg hcfg _ rfl body hbody _ rfl _ rfl htok hkey hgh
    exact hout

/-- Witness for C9: the two fetched bytes come back unmodified and the run
prints "Fetched 2 bytes.". -/
theorem fetch_roundtrip_logged_witness :
    (fetch_spec_from_github wOk "o" "r" "spec/spec.json" "main" "ghp_x").2 =
      .ok [123, 125] ∧
    ("Fetched 2 bytes.") ∈ (main_run wOk envSecrets "o" "r" none none).2.1 :=
  fetch_roundtrip_logged wOk envSecrets "o" "r" none none
    ⟨"o", "r", "spec/spec.json", "main"⟩ (by decide) [123, 125] rfl rfl rfl
    (fun _ _ _ _ => rfl)

/-- C10: the filename carried by the run's upload call is the basename of
the effective path, falling back to "spec.json" when that basename is
empty, so it is never the empty string. -/
theorem upload_filename_nonempty (w : World) (env : EnvMap)
    (cli_owner cli_repo : String) (cli_path cli_ref : Option String)
    (cfg : Resolved)
    (hcfg : cfg = resolve_config env cli_owner cli_repo cli_path cli_ref)
    (fname : String)
    (hfname : fname = (if os_path_basename cfg.path ≠ "" then os_path_basename cfg.path
      else "spec.json"))
    (htok : truthyOpt (env "GITHUB_TOKEN") = true)
    (hkey : truthyOpt (env "OPENAI_API_KEY") = true)
    (hgh : ∀ o r p q, (w.gh o r p q).status = 200) :
    fname ≠ "" ∧
    ((main_run w env cli_owner cli_repo cli_path cli_ref).1.any
      (Call.uploadsFilename fname)) = true := by
  constructor
  · subst hfname
    by_cases hb : os_path_basename cfg.path = ""
    · simp [hb]
    · simp [hb]
  · obtain ⟨hmem, -⟩ := main_run_decomp w env cli_owner cli_repo cli_path cli_ref
      cfg hcfg _ rfl _ rfl _ rfl fname hfname htok hkey hgh
    exact List.any_eq_true.mpr ⟨_, hmem, by simp [Call.uploadsFilename]⟩

/-- Witness for C10: with the default path "spec/spec.json" the uploaded
stream is named "spec.json", which is not empty. -/
theorem upload_filename_nonempty_witness :
    ("spec.json" : String) ≠ "" ∧
    ((main_run wOk envSecrets "o" "r" none none).1.any
      (Call.uploadsFilename "spec.json")) = true :=
  upload_filename_nonempty wOk envSecrets "o" "r" none none
    ⟨"o", "r", "spec/spec.json", "main"⟩ (by decide) "spec.json" (by decide) rfl rfl
    (fun _ _ _ _ => rfl)

end BoatSpec
